import Mathlib

/-!
# Smart Surveillance System: the client controller of `App.js`

A shallow embedding of `src/deepface-react-ui-main/src/App.js`: the display
state held in the React state hooks, the registry loop of `verify`, the single
request of `analyze`, and `captureImage`, which dispatches to one of them.

The remote recognition service is an oracle.  A request either is rejected
(`fetch` throws, modelled by `none`) or yields a response with an `ok` flag and
a body whose parsing may itself fail.  Numbers are exact rationals.
-/

set_option autoImplicit false

namespace SmartSurveillance

/-! ## Data model -/

/-- The constants read from the environment at the top of `App` (lines 4-8). -/
structure Config where
  facialRecognitionModel : String
  faceDetector : String
  distanceMetric : String
  serviceEndpoint : String
  antiSpoofing : Bool
  deriving DecidableEq

/-- The five `useState` cells that drive the rendering (lines 13-17).
`none` is JavaScript `null`. -/
structure DisplayState where
  isVerified : Option Bool
  identity : Option String
  accuracy : Option ℚ
  isAnalyzed : Option Bool
  analysis : List String
  deriving DecidableEq

/-- The values the `useState` calls start from. -/
def initialState : DisplayState :=
  { isVerified := none, identity := none, accuracy := none, isAnalyzed := none, analysis := [] }

/-- The registry `facialDb`, as the list of its (key, value) pairs in the order in which
`for (const key in facialDb)` visits them. -/
abbrev FacialDb := List (String × String)

/-- The body posted to the verify endpoint (lines 88-97) together with the address. -/
structure VerifyRequest where
  url : String
  model_name : String
  detector_backend : String
  distance_metric : String
  align : Bool
  img1 : String
  img2 : String
  enforce_detection : Bool
  anti_spoofing : Bool
  deriving DecidableEq

/-- The fields of a parsed verify response that the code reads. -/
structure VerifyData where
  verified : Bool
  distance : ℚ
  deriving DecidableEq

/-- A response of the verify endpoint: `response.ok`, `response.status`, and the outcome of
`response.json()`, `none` when that promise rejects. -/
structure VerifyResponse where
  ok : Bool
  status : Nat
  json : Option VerifyData
  deriving DecidableEq

/-- The service as seen by the loop of `verify`: the answer to the request issued for the registry
entry at a given position; `none` means that `fetch` throws. -/
abbrev VerifyFetch := Nat → VerifyRequest → Option VerifyResponse

/-- The body posted to the analyze endpoint (lines 146-152) together with the address. -/
structure AnalyzeRequest where
  url : String
  detector_backend : String
  align : Bool
  img : String
  enforce_detection : Bool
  anti_spoofing : Bool
  deriving DecidableEq

/-- The value of `instance.age` as the template string of line 168 sees it.  A JSON number that
is a non-negative integer up to `Number.MAX_SAFE_INTEGER` (2^53 - 1) is `integer`, and is printed
in decimal.  Every other value (a fraction, a negative or larger number, a value of another
type, a field that is absent) is `other`, given by the string the interpolation produces for
it, such as `"30.5"`, `"1e+21"` or `"undefined"`. -/
inductive AgeValue where
  | integer (n : Fin 9007199254740992)
  | other (rendering : String)
  deriving DecidableEq

/-- One entry of `data.results`, with the four fields the summary reads. -/
structure AnalyzeInstance where
  age : AgeValue
  dominant_race : String
  dominant_gender : String
  dominant_emotion : String
  deriving DecidableEq

/-- A response of the analyze endpoint; `json` is `data.results`, `none` when parsing the body
or iterating the results throws. -/
structure AnalyzeResponse where
  ok : Bool
  status : Nat
  json : Option (List AnalyzeInstance)
  deriving DecidableEq

/-- The service as seen by `analyze`; `none` means that `fetch` throws. -/
abbrev AnalyzeFetch := AnalyzeRequest → Option AnalyzeResponse

/-! ## verify -/

/-- The constant `threshold` of line 117. -/
def threshold : ℚ := 2 / 5

/-- Lines 118-119: `Math.max(0, 100 - (distance / threshold) * 100)` and then
`Math.min(matchAccuracy, 100)`. -/
def matchAccuracyOf (distance : ℚ) : ℚ :=
  min (max 0 (100 - (distance / threshold) * 100)) 100

/-- The request built at lines 88-105 for one registry value. -/
def verifyRequest (cfg : Config) (base64Img targetEmbedding : String) : VerifyRequest :=
  { url := cfg.serviceEndpoint ++ "/verify"
    model_name := cfg.facialRecognitionModel
    detector_backend := cfg.faceDetector
    distance_metric := cfg.distanceMetric
    align := true
    img1 := base64Img
    img2 := targetEmbedding
    enforce_detection := false
    anti_spoofing := cfg.antiSpoofing }

/-- The three local variables of `verify` (lines 75-77). -/
structure LoopVars where
  verified : Bool
  foundIdentity : Option String
  matchAccuracy : ℚ
  deriving DecidableEq

/-- The values of the local variables before the loop. -/
def LoopVars.init : LoopVars :=
  { verified := false, foundIdentity := none, matchAccuracy := 0 }

/-- The `for` loop of lines 80-126 over the entries not yet visited, `i` being the position of
the first of them.  The first component is the local variables when the loop is left normally
(by exhaustion or by `break`), `none` when an exception leaves it; the second is the requests
issued, each with the position of its entry, in the order of issue. -/
def verifyLoop (cfg : Config) (fetch : VerifyFetch) (base64Img : String) :
    FacialDb → Nat → LoopVars → Option LoopVars × List (Nat × VerifyRequest)
  | [], _, vars => (some vars, [])
  | (key, targetEmbedding) :: rest, i, vars =>
    if targetEmbedding = "" then
      verifyLoop cfg fetch base64Img rest (i + 1) vars
    else
      let requestBody := verifyRequest cfg base64Img targetEmbedding
      match fetch i requestBody with
      | none => (none, [(i, requestBody)])
      | some response =>
        if response.ok = false then
          let r := verifyLoop cfg fetch base64Img rest (i + 1) vars
          (r.1, (i, requestBody) :: r.2)
        else
          match response.json with
          | none => (none, [(i, requestBody)])
          | some data =>
            let vars1 := { vars with matchAccuracy := matchAccuracyOf data.distance }
            if data.verified = true then
              (some { vars1 with verified := true, foundIdentity := some key },
                [(i, requestBody)])
            else
              let r := verifyLoop cfg fetch base64Img rest (i + 1) vars1
              (r.1, (i, requestBody) :: r.2)

/-- The function `verify` (lines 67-139) as a transformer of the display state, paired with the
requests it issues. -/
def verify (cfg : Config) (facialDb : FacialDb) (fetch : VerifyFetch) (base64Img : String)
    (s : DisplayState) : DisplayState × List (Nat × VerifyRequest) :=
  if base64Img = "" then
    ({ s with isVerified := some false, accuracy := none }, [])
  else
    match verifyLoop cfg fetch base64Img facialDb 0 LoopVars.init with
    | (some vars, log) =>
      let s1 := { s with isVerified := some vars.verified
                         identity := vars.foundIdentity
                         accuracy := some vars.matchAccuracy }
      (if vars.verified = false then { s1 with isAnalyzed := none } else s1, log)
    | (none, log) =>
      ({ s with isVerified := some false, accuracy := none }, log)

/-! ## analyze -/

/-- The string that the interpolation of `instance.age` in line 168 produces. -/
def renderAge : AgeValue → String
  | .integer n => toString n.val
  | .other rendering => rendering

/-- The template string of line 168. -/
def summary (inst : AnalyzeInstance) : String :=
  renderAge inst.age ++ " years old " ++ inst.dominant_race ++ " " ++ inst.dominant_gender ++
    " with " ++ inst.dominant_emotion ++ " mood."

/-- The request built at lines 146-158. -/
def analyzeRequest (cfg : Config) (base64Img : String) : AnalyzeRequest :=
  { url := cfg.serviceEndpoint ++ "/analyze"
    detector_backend := cfg.faceDetector
    align := true
    img := base64Img
    enforce_detection := false
    anti_spoofing := cfg.antiSpoofing }

/-- The function `analyze` (lines 141-183) as a transformer of the display state, paired with
the requests it issues. -/
def analyze (cfg : Config) (fetch : AnalyzeFetch) (base64Img : String) (s : DisplayState) :
    DisplayState × List AnalyzeRequest :=
  let s0 := { s with isAnalyzed := some false }
  let requestBody := analyzeRequest cfg base64Img
  match fetch requestBody with
  | none => (s0, [requestBody])
  | some response =>
    if response.ok = false then
      (s0, [requestBody])
    else
      match response.json with
      | none => (s0, [requestBody])
      | some results =>
        let result := results.map summary
        if result.length > 0 then
          ({ s0 with analysis := result, isAnalyzed := some true, isVerified := none,
                     accuracy := none }, [requestBody])
        else
          (s0, [requestBody])

/-! ## captureImage and the two buttons -/

/-- One press of a button: the frame the canvas yields and the behaviour of the service while
the action runs. -/
inductive Action where
  | verify (base64Img : String) (fetch : VerifyFetch)
  | analyze (base64Img : String) (fetch : AnalyzeFetch)

/-- The function `captureImage` (lines 48-65): reset the verification cells, then run the task
on the captured frame. -/
def captureImage (cfg : Config) (facialDb : FacialDb) (s : DisplayState) : Action → DisplayState
  | .verify base64Img fetch =>
    (verify cfg facialDb fetch base64Img
      { s with isVerified := none, identity := none, accuracy := none }).1
  | .analyze base64Img fetch =>
    (analyze cfg fetch base64Img
      { s with isVerified := none, identity := none, accuracy := none }).1

/-- The display state after a sequence of button presses, each run to completion. -/
def runActions (cfg : Config) (facialDb : FacialDb) (s : DisplayState) (acts : List Action) :
    DisplayState :=
  acts.foldl (captureImage cfg facialDb) s

/-! ## Vocabulary for the statements -/

/-- What the loop body of `verify` does with one registry entry. -/
inductive EntryOutcome where
  /-- The reference is empty: the entry is skipped and no request is issued. -/
  | skipped
  /-- `fetch` throws, or the body of a success response fails to parse. -/
  | threw
  /-- The response has a non-success status. -/
  | httpError
  /-- A success response with `verified` not `true`. -/
  | nonMatch (distance : ℚ)
  /-- A success response with `verified === true`. -/
  | matched (distance : ℚ)
  deriving DecidableEq

/-- The outcome of the loop body for the entry `e` at position `i`. -/
def entryOutcome (cfg : Config) (fetch : VerifyFetch) (base64Img : String) (i : Nat)
    (e : String × String) : EntryOutcome :=
  if e.2 = "" then .skipped
  else
    match fetch i (verifyRequest cfg base64Img e.2) with
    | none => .threw
    | some response =>
      if response.ok = false then .httpError
      else
        match response.json with
        | none => .threw
        | some data => if data.verified = true then .matched data.distance
                       else .nonMatch data.distance

/-- The requests a full pass over the entries issues: one for each entry with a non-empty
reference, `i` being the position of the first entry. -/
def issued (cfg : Config) (base64Img : String) : FacialDb → Nat → List (Nat × VerifyRequest)
  | [], _ => []
  | (_, targetEmbedding) :: rest, i =>
    if targetEmbedding = "" then issued cfg base64Img rest (i + 1)
    else (i, verifyRequest cfg base64Img targetEmbedding) :: issued cfg base64Img rest (i + 1)

/-! ## Concrete inputs used in the statements below -/

/-- A configuration with the defaults of lines 4-6. -/
def sampleConfig : Config :=
  { facialRecognitionModel := "Facenet", faceDetector := "opencv", distanceMetric := "cosine",
    serviceEndpoint := "http://localhost:5005", antiSpoofing := false }

/-- A success response of the verify endpoint. -/
def verifyOk (verified : Bool) (distance : ℚ) : Option VerifyResponse :=
  some { ok := true, status := 200, json := some { verified := verified, distance := distance } }

/-- A response of the verify endpoint with status 500 and a body that does not parse. -/
def verifyHttp500 : Option VerifyResponse :=
  some { ok := false, status := 500, json := none }

/-- A registry of two entries with references. -/
def twoEntries : FacialDb := [("alice", "A"), ("bob", "B")]

/-- A registry whose first entry has an empty reference. -/
def firstEmpty : FacialDb := [("alice", ""), ("bob", "B")]

/-- A registry of three entries with references. -/
def threeEntries : FacialDb := [("alice", "A"), ("bob", "B"), ("carol", "C")]

/-- The service reports a match for the entry at position 1 only. -/
def matchSecond : VerifyFetch :=
  fun i _ => if i = 1 then verifyOk true (1 / 10) else verifyOk false (1 / 2)

/-- The request for the entry at position 0 throws; every other request reports a match. -/
def throwFirst : VerifyFetch :=
  fun i _ => if i = 0 then none else verifyOk true (1 / 10)

/-- The request for the entry at position 0 gets status 500; every other reports a match. -/
def http500First : VerifyFetch :=
  fun i _ => if i = 0 then verifyHttp500 else verifyOk true (1 / 10)

/-- Position 0 is compared at distance 0.2 without a match, the request for position 1 throws,
every later request reports a match. -/
def throwSecond : VerifyFetch :=
  fun i _ => if i = 0 then verifyOk false (1 / 5) else if i = 1 then none else verifyOk true 0

/-- Position 0 is compared at distance 0.2 without a match; every later request gets status 500
with a body that reports distance 0.8. -/
def http500AfterFirst : VerifyFetch :=
  fun i _ => if i = 0 then verifyOk false (1 / 5)
    else some { ok := false, status := 500, json := some { verified := false, distance := 4 / 5 } }

/-- Every request gets status 500. -/
def http500Always : VerifyFetch := fun _ _ => verifyHttp500

/-- The result entry of the example in the specification. -/
def sampleInstance : AnalyzeInstance :=
  { age := .integer 30, dominant_race := "asian", dominant_gender := "Man",
    dominant_emotion := "happy" }

/-- A success response of the analyze endpoint. -/
def analyzeOk (results : List AnalyzeInstance) : AnalyzeFetch :=
  fun _ => some { ok := true, status := 200, json := some results }

/-- A display state that shows an analysis. -/
def shownAnalysis : DisplayState :=
  { isVerified := none, identity := none, accuracy := none, isAnalyzed := some true,
    analysis := ["30 years old asian Man with happy mood."] }

/-- Every request reports a match at distance 0.1. -/
def matchAlways : VerifyFetch := fun _ _ => verifyOk true (1 / 10)

/-- Every request is compared at distance 0.5 without a match. -/
def matchNever : VerifyFetch := fun _ _ => verifyOk false (1 / 2)

/-- The analyze request throws. -/
def analyzeThrows : AnalyzeFetch := fun _ => none

/-- The analyze request gets status 500. -/
def analyzeHttp500 : AnalyzeFetch := fun _ => some { ok := false, status := 500, json := none }

/-! ## The loop of verify, entry by entry -/

section loop

variable (cfg : Config) (fetch : VerifyFetch) (base64Img : String)

theorem verifyLoop_cons (e : String × String) (rest : FacialDb) (i : Nat) (vars : LoopVars) :
    verifyLoop cfg fetch base64Img (e :: rest) i vars =
      match entryOutcome cfg fetch base64Img i e with
      | .skipped => verifyLoop cfg fetch base64Img rest (i + 1) vars
      | .threw => (none, [(i, verifyRequest cfg base64Img e.2)])
      | .httpError =>
        ((verifyLoop cfg fetch base64Img rest (i + 1) vars).1,
          (i, verifyRequest cfg base64Img e.2) ::
            (verifyLoop cfg fetch base64Img rest (i + 1) vars).2)
      | .nonMatch d =>
        ((verifyLoop cfg fetch base64Img rest (i + 1)
            { vars with matchAccuracy := matchAccuracyOf d }).1,
          (i, verifyRequest cfg base64Img e.2) ::
            (verifyLoop cfg fetch base64Img rest (i + 1)
              { vars with matchAccuracy := matchAccuracyOf d }).2)
      | .matched d =>
        (some { verified := true, foundIdentity := some e.1, matchAccuracy := matchAccuracyOf d },
          [(i, verifyRequest cfg base64Img e.2)]) := by
  obtain ⟨key, t⟩ := e
  simp only [verifyLoop, entryOutcome]
  by_cases h1 : t = ""
  · simp [h1]
  · simp only [h1, if_false]
    cases hf : fetch i (verifyRequest cfg base64Img t) with
    | none => simp
    | some response =>
      by_cases h2 : response.ok = false
      · simp [h2]
      · simp only [h2, if_false]
        cases hj : response.json with
        | none => simp
        | some data =>
          by_cases h3 : data.verified = true
          · simp [h3]
          · simp [h3]

theorem entryOutcome_eq_skipped_iff (i : Nat) (e : String × String) :
    entryOutcome cfg fetch base64Img i e = .skipped ↔ e.2 = "" := by
  unfold entryOutcome
  by_cases h1 : e.2 = ""
  · simp [h1]
  · simp only [h1, if_false, iff_false]
    cases fetch i (verifyRequest cfg base64Img e.2) with
    | none => simp
    | some response =>
      by_cases h2 : response.ok = false
      · simp [h2]
      · simp only [h2, if_false]
        cases response.json with
        | none => simp
        | some data => by_cases h3 : data.verified = true <;> simp [h3]

theorem issued_cons (e : String × String) (rest : FacialDb) (i : Nat) :
    issued cfg base64Img (e :: rest) i =
      if e.2 = "" then issued cfg base64Img rest (i + 1)
      else (i, verifyRequest cfg base64Img e.2) :: issued cfg base64Img rest (i + 1) := by
  obtain ⟨key, t⟩ := e
  simp [issued]

theorem entryOutcome_ne_skipped (i : Nat) (e : String × String)
    (h : entryOutcome cfg fetch base64Img i e ≠ .skipped) : e.2 ≠ "" :=
  fun h2 => h ((entryOutcome_eq_skipped_iff cfg fetch base64Img i e).2 h2)

/-- Entries that are skipped or answered with a non-success status leave the local variables
as they are. -/
theorem verifyLoop_inert (db : FacialDb) (i : Nat) (vars : LoopVars)
    (h : ∀ j e, db[j]? = some e →
      entryOutcome cfg fetch base64Img (i + j) e = .skipped ∨
      entryOutcome cfg fetch base64Img (i + j) e = .httpError) :
    verifyLoop cfg fetch base64Img db i vars = (some vars, issued cfg base64Img db i) := by
  induction db generalizing i with
  | nil => simp [verifyLoop, issued]
  | cons a l ih =>
    have hl : verifyLoop cfg fetch base64Img l (i + 1) vars
        = (some vars, issued cfg base64Img l (i + 1)) := by
      apply ih
      intro j e hj
      have := h (j + 1) e (by simpa using hj)
      rwa [show i + (j + 1) = i + 1 + j by omega] at this
    have h0 := h 0 a (by simp)
    rw [Nat.add_zero] at h0
    rw [verifyLoop_cons, issued_cons]
    rcases h0 with h0 | h0
    · rw [h0, if_pos ((entryOutcome_eq_skipped_iff cfg fetch base64Img i a).1 h0)]
      exact hl
    · have hne : a.2 ≠ "" := entryOutcome_ne_skipped cfg fetch base64Img i a (by rw [h0]; simp)
      rw [h0, if_neg hne]
      simp [hl]

/-- The loop up to the first positive match, when nothing before it throws. -/
theorem verifyLoop_first_match (db : FacialDb) (i : Nat) (vars : LoopVars) (k : Nat)
    (e : String × String) (d : ℚ) (hk : db[k]? = some e)
    (hm : entryOutcome cfg fetch base64Img (i + k) e = .matched d)
    (hpre : ∀ j e', j < k → db[j]? = some e' →
      entryOutcome cfg fetch base64Img (i + j) e' ≠ .threw ∧
      ∀ d', entryOutcome cfg fetch base64Img (i + j) e' ≠ .matched d') :
    verifyLoop cfg fetch base64Img db i vars =
      (some { verified := true, foundIdentity := some e.1, matchAccuracy := matchAccuracyOf d },
        issued cfg base64Img (db.take (k + 1)) i) := by
  induction db generalizing i vars k with
  | nil => simp at hk
  | cons a l ih =>
    cases k with
    | zero =>
      simp only [List.getElem?_cons_zero, Option.some.injEq] at hk
      subst hk
      rw [Nat.add_zero] at hm
      have hne : a.2 ≠ "" := entryOutcome_ne_skipped cfg fetch base64Img i a (by rw [hm]; simp)
      rw [verifyLoop_cons, hm]
      simp [issued, issued_cons, hne]
    | succ k =>
      have hrec : ∀ vars1 : LoopVars, verifyLoop cfg fetch base64Img l (i + 1) vars1 =
          (some { verified := true, foundIdentity := some e.1,
                  matchAccuracy := matchAccuracyOf d },
            issued cfg base64Img (l.take (k + 1)) (i + 1)) := by
        intro vars1
        apply ih
        · simpa using hk
        · rwa [show i + (k + 1) = i + 1 + k by omega] at hm
        · intro j e1 hj hje
          have := hpre (j + 1) e1 (by omega) (by simpa using hje)
          rwa [show i + (j + 1) = i + 1 + j by omega] at this
      have h0 := hpre 0 a (by omega) (by simp)
      rw [Nat.add_zero] at h0
      rw [verifyLoop_cons, List.take_succ_cons, issued_cons]
      cases ho : entryOutcome cfg fetch base64Img i a with
      | skipped =>
        rw [if_pos ((entryOutcome_eq_skipped_iff cfg fetch base64Img i a).1 ho)]
        exact hrec vars
      | threw => exact absurd ho h0.1
      | httpError =>
        have hne : a.2 ≠ "" := entryOutcome_ne_skipped cfg fetch base64Img i a (by rw [ho]; simp)
        rw [if_neg hne]
        simp [hrec]
      | nonMatch d1 =>
        have hne : a.2 ≠ "" := entryOutcome_ne_skipped cfg fetch base64Img i a (by rw [ho]; simp)
        rw [if_neg hne]
        simp [hrec]
      | matched d1 => exact absurd ho (h0.2 d1)

/-- An exception leaves the loop: nothing is returned and no request is issued for an entry
after the one that throws. -/
theorem verifyLoop_throw (db : FacialDb) (i : Nat) (vars : LoopVars) (j : Nat)
    (e : String × String) (hj : db[j]? = some e)
    (ht : entryOutcome cfg fetch base64Img (i + j) e = .threw)
    (hpre : ∀ m e', m < j → db[m]? = some e' →
      ∀ d', entryOutcome cfg fetch base64Img (i + m) e' ≠ .matched d') :
    (verifyLoop cfg fetch base64Img db i vars).1 = none ∧
    ∀ p ∈ (verifyLoop cfg fetch base64Img db i vars).2, p.1 ≤ i + j := by
  induction db generalizing i vars j with
  | nil => simp at hj
  | cons a l ih =>
    cases j with
    | zero =>
      simp only [List.getElem?_cons_zero, Option.some.injEq] at hj
      subst hj
      rw [Nat.add_zero] at ht
      rw [verifyLoop_cons, ht]
      simp
    | succ j =>
      have hrec : ∀ vars1 : LoopVars,
          (verifyLoop cfg fetch base64Img l (i + 1) vars1).1 = none ∧
          ∀ p ∈ (verifyLoop cfg fetch base64Img l (i + 1) vars1).2, p.1 ≤ i + (j + 1) := by
        intro vars1
        rw [show i + (j + 1) = i + 1 + j by omega]
        apply ih
        · simpa using hj
        · rwa [show i + (j + 1) = i + 1 + j by omega] at ht
        · intro m e1 hm hme
          have := hpre (m + 1) e1 (by omega) (by simpa using hme)
          rwa [show i + (m + 1) = i + 1 + m by omega] at this
      have h0 := hpre 0 a (by omega) (by simp)
      rw [Nat.add_zero] at h0
      rw [verifyLoop_cons]
      cases ho : entryOutcome cfg fetch base64Img i a with
      | skipped => exact hrec vars
      | threw => simp
      | httpError =>
        refine ⟨(hrec vars).1, ?_⟩
        intro p hp
        rcases List.mem_cons.1 hp with hp | hp
        · subst hp; simp
        · exact (hrec vars).2 p hp
      | nonMatch d1 =>
        refine ⟨(hrec _).1, ?_⟩
        intro p hp
        rcases List.mem_cons.1 hp with hp | hp
        · subst hp; simp
        · exact (hrec _).2 p hp
      | matched d1 => exact absurd ho (h0 d1)

/-- The loop when it runs to the end without a match: the score is that of the last entry
answered with a success response. -/
theorem verifyLoop_no_match (db : FacialDb) (i : Nat) (vars : LoopVars) (l : Nat)
    (e : String × String) (d : ℚ) (hl : db[l]? = some e)
    (hn : entryOutcome cfg fetch base64Img (i + l) e = .nonMatch d)
    (hpre : ∀ m e', m < l → db[m]? = some e' →
      entryOutcome cfg fetch base64Img (i + m) e' ≠ .threw ∧
      ∀ d', entryOutcome cfg fetch base64Img (i + m) e' ≠ .matched d')
    (hpost : ∀ m e', l < m → db[m]? = some e' →
      entryOutcome cfg fetch base64Img (i + m) e' = .skipped ∨
      entryOutcome cfg fetch base64Img (i + m) e' = .httpError) :
    verifyLoop cfg fetch base64Img db i vars =
      (some { vars with matchAccuracy := matchAccuracyOf d }, issued cfg base64Img db i) := by
  induction db generalizing i vars l with
  | nil => simp at hl
  | cons a rest ih =>
    cases l with
    | zero =>
      simp only [List.getElem?_cons_zero, Option.some.injEq] at hl
      subst hl
      rw [Nat.add_zero] at hn
      have hne : a.2 ≠ "" := entryOutcome_ne_skipped cfg fetch base64Img i a (by rw [hn]; simp)
      rw [verifyLoop_cons, hn, issued_cons, if_neg hne]
      have := verifyLoop_inert cfg fetch base64Img rest (i + 1)
        { vars with matchAccuracy := matchAccuracyOf d } (by
          intro m e1 hme
          have := hpost (m + 1) e1 (by omega) (by simpa using hme)
          rwa [show i + (m + 1) = i + 1 + m by omega] at this)
      simp [this]
    | succ l =>
      have hrec : ∀ vars1 : LoopVars, verifyLoop cfg fetch base64Img rest (i + 1) vars1 =
          (some { vars1 with matchAccuracy := matchAccuracyOf d },
            issued cfg base64Img rest (i + 1)) := by
        intro vars1
        apply ih (i + 1) vars1 l
        · simpa using hl
        · rwa [show i + (l + 1) = i + 1 + l by omega] at hn
        · intro m e1 hm hme
          have := hpre (m + 1) e1 (by omega) (by simpa using hme)
          rwa [show i + (m + 1) = i + 1 + m by omega] at this
        · intro m e1 hm hme
          have := hpost (m + 1) e1 (by omega) (by simpa using hme)
          rwa [show i + (m + 1) = i + 1 + m by omega] at this
      have h0 := hpre 0 a (by omega) (by simp)
      rw [Nat.add_zero] at h0
      rw [verifyLoop_cons, issued_cons]
      cases ho : entryOutcome cfg fetch base64Img i a with
      | skipped =>
        rw [if_pos ((entryOutcome_eq_skipped_iff cfg fetch base64Img i a).1 ho)]
        exact hrec vars
      | threw => exact absurd ho h0.1
      | httpError =>
        have hne : a.2 ≠ "" := entryOutcome_ne_skipped cfg fetch base64Img i a (by rw [ho]; simp)
        rw [if_neg hne]
        simp [hrec]
      | nonMatch d1 =>
        have hne : a.2 ≠ "" := entryOutcome_ne_skipped cfg fetch base64Img i a (by rw [ho]; simp)
        rw [if_neg hne]
        simp [hrec]
      | matched d1 => exact absurd ho (h0.2 d1)

theorem issued_length_le (db : FacialDb) (i : Nat) :
    (issued cfg base64Img db i).length ≤ db.length := by
  induction db generalizing i with
  | nil => simp [issued]
  | cons a l ih =>
    rw [issued_cons]
    split_ifs
    · have := ih (i + 1); simp; omega
    · have := ih (i + 1); simp; omega

theorem issued_length_of_nonempty (db : FacialDb) (i : Nat) (h : ∀ e ∈ db, e.2 ≠ "") :
    (issued cfg base64Img db i).length = db.length := by
  induction db generalizing i with
  | nil => simp [issued]
  | cons a l ih =>
    rw [issued_cons, if_neg (h a (by simp))]
    simp [ih (i + 1) (fun e he => h e (by simp [he]))]

theorem issued_length (db : FacialDb) (i : Nat) :
    (issued cfg base64Img db i).length = db.countP (fun e => decide (e.2 ≠ "")) := by
  induction db generalizing i with
  | nil => simp [issued]
  | cons a l ih =>
    rw [issued_cons]
    by_cases h : a.2 = ""
    · simp [h, ih (i + 1)]
    · simp [h, ih (i + 1)]

end loop
/-! ## The claims -/

theorem mem_issued (cfg : Config) (base64Img : String) (db : FacialDb) (i k : Nat)
    (e : String × String) (hk : db[k]? = some e) (hne : e.2 ≠ "") :
    (i + k, verifyRequest cfg base64Img e.2) ∈ issued cfg base64Img db i := by
  induction db generalizing i k with
  | nil => simp at hk
  | cons a l ih =>
    rw [issued_cons]
    cases k with
    | zero =>
      simp only [List.getElem?_cons_zero, Option.some.injEq] at hk
      subst hk
      simp [hne]
    | succ k =>
      have := ih (i + 1) k (by simpa using hk)
      rw [show i + 1 + k = i + (k + 1) by omega] at this
      split_ifs
      · exact this
      · exact List.mem_cons_of_mem _ this

theorem matchAccuracyOf_eq_clamp (d : ℚ) :
    matchAccuracyOf d = max 0 (min 100 (100 - (d / 0.4) * 100)) := by
  have h : (0.4 : ℚ) = threshold := by norm_num [threshold]
  rw [h]
  unfold matchAccuracyOf
  rcases le_total (100 - d / threshold * 100) 0 with h1 | h1
  · rw [max_eq_left h1, min_eq_left (by norm_num), min_eq_right (by linarith), max_eq_left h1]
  · rw [max_eq_right h1]
    rcases le_total (100 - d / threshold * 100) 100 with h2 | h2
    · rw [min_eq_left h2, min_eq_right h2, max_eq_right h1]
    · rw [min_eq_right h2, min_eq_left h2, max_eq_right (by norm_num)]

/-- C2: the confidence computed from a distance `d` by lines 118-119 (clamp low, then clamp
high) equals `max(0, min(100, 100 - (d/0.4)*100))`; this is the accuracy `verify` stores for a
registry entry compared at distance `d`; and the distances 0, 0.2, 0.4 and 0.8 give 100, 50,
0 and 0. -/
theorem confidence_is_clamp (d : ℚ) :
    matchAccuracyOf d = max 0 (min 100 (100 - (d / 0.4) * 100)) ∧
    (∀ (cfg : Config) (key : String) (v : Bool) (s : DisplayState),
      (verify cfg [(key, "ref")] (fun _ _ => verifyOk v d) "frame" s).1.accuracy
        = some (max 0 (min 100 (100 - (d / 0.4) * 100)))) ∧
    matchAccuracyOf 0 = 100 ∧ matchAccuracyOf 0.2 = 50 ∧
    matchAccuracyOf 0.4 = 0 ∧ matchAccuracyOf 0.8 = 0 := by
  refine ⟨matchAccuracyOf_eq_clamp d, ?_, ?_, ?_, ?_, ?_⟩
  · intro cfg key v s
    rw [← matchAccuracyOf_eq_clamp]
    cases v <;> simp [verify, verifyLoop, verifyOk, LoopVars.init]
  all_goals norm_num [matchAccuracyOf, threshold]

theorem verify_of_loop_some (cfg : Config) (db : FacialDb) (fetch : VerifyFetch)
    (base64Img : String) (s : DisplayState) (vars : LoopVars) (log : List (Nat × VerifyRequest))
    (himg : base64Img ≠ "")
    (h : verifyLoop cfg fetch base64Img db 0 LoopVars.init = (some vars, log)) :
    verify cfg db fetch base64Img s =
      (if vars.verified = false then
          { s with isVerified := some vars.verified, identity := vars.foundIdentity,
                   accuracy := some vars.matchAccuracy, isAnalyzed := none }
        else
          { s with isVerified := some vars.verified, identity := vars.foundIdentity,
                   accuracy := some vars.matchAccuracy }, log) := by
  simp only [verify, if_neg himg, h]

theorem verify_of_loop_none (cfg : Config) (db : FacialDb) (fetch : VerifyFetch)
    (base64Img : String) (s : DisplayState) (himg : base64Img ≠ "")
    (h : (verifyLoop cfg fetch base64Img db 0 LoopVars.init).1 = none) :
    verify cfg db fetch base64Img s =
      ({ s with isVerified := some false, accuracy := none },
        (verifyLoop cfg fetch base64Img db 0 LoopVars.init).2) := by
  simp only [verify, if_neg himg]
  revert h
  cases verifyLoop cfg fetch base64Img db 0 LoopVars.init with
  | mk a b => intro h; simp only at h; subst h; rfl

/-- C1, as the code has it: when the entry at position `k` (counted from 0) is the first whose
request gets a success response with `verified = true`, and no request for an earlier entry
throws, `verify` on a non-empty frame issues one request for each of the entries at positions
`0..k` that has a non-empty reference and no other (so exactly `k + 1` requests when none of
these references is empty), and ends with `isVerified = true` and `identity` the key of that
entry.  Nothing is assumed of the entries after `k` or of their responses. -/
theorem verify_first_match (cfg : Config) (db : FacialDb) (fetch : VerifyFetch)
    (base64Img : String) (s : DisplayState) (k : Nat) (e : String × String) (d : ℚ)
    (himg : base64Img ≠ "") (hk : db[k]? = some e)
    (hm : entryOutcome cfg fetch base64Img k e = .matched d)
    (hpre : ∀ j e', j < k → db[j]? = some e' →
      entryOutcome cfg fetch base64Img j e' ≠ .threw ∧
      ∀ d', entryOutcome cfg fetch base64Img j e' ≠ .matched d') :
    (verify cfg db fetch base64Img s).1.isVerified = some true ∧
    (verify cfg db fetch base64Img s).1.identity = some e.1 ∧
    (verify cfg db fetch base64Img s).2 = issued cfg base64Img (db.take (k + 1)) 0 ∧
    (verify cfg db fetch base64Img s).2.length
      = (db.take (k + 1)).countP (fun e' => decide (e'.2 ≠ "")) ∧
    ((∀ e' ∈ db.take (k + 1), e'.2 ≠ "") →
      (verify cfg db fetch base64Img s).2.length = k + 1) := by
  have hloop := verifyLoop_first_match cfg fetch base64Img db 0 LoopVars.init k e d hk
    (by simpa using hm) (by simpa using hpre)
  rw [verify_of_loop_some cfg db fetch base64Img s _ _ himg hloop]
  refine ⟨by simp, by simp, rfl, issued_length cfg base64Img _ 0, ?_⟩
  intro hne
  have hlen : k < db.length := by
    rcases Nat.lt_or_ge k db.length with h | h
    · exact h
    · rw [List.getElem?_eq_none h] at hk; simp at hk
  simp only
  rw [issued_length_of_nonempty cfg base64Img _ 0 hne, List.length_take]
  omega

/-- Witness for C1: three entries, the second matches after the first was compared without a
match. -/
theorem verify_first_match_witness :
    (verify sampleConfig threeEntries matchSecond "frame" initialState).1.isVerified = some true ∧
    (verify sampleConfig threeEntries matchSecond "frame" initialState).1.identity = some "bob" ∧
    (verify sampleConfig threeEntries matchSecond "frame" initialState).2.length = 2 := by
  have h := verify_first_match sampleConfig threeEntries matchSecond "frame" initialState 1
    ("bob", "B") (1 / 10) (by decide) (by simp [threeEntries])
    (by simp [entryOutcome, matchSecond, verifyOk])
    (by
      intro j e' hj he'
      have hj0 : j = 0 := by omega
      subst hj0
      simp [threeEntries] at he'
      subst he'
      simp [entryOutcome, matchSecond, verifyOk])
  exact ⟨h.1, h.2.1, h.2.2.2.2 (by simp [threeEntries])⟩

/-- Counterexample to C1 as stated: with the registry `firstEmpty`, whose second entry is the
first to get a response with `verified = true`, `verify` issues one request, not two; and with
`twoEntries`, when the request for the first entry throws, it ends with `isVerified = false`
although the second entry would have matched. -/
theorem verify_first_match_counterexample :
    (firstEmpty.length = 2 ∧
      entryOutcome sampleConfig matchSecond "frame" 0 ("alice", "") = .skipped ∧
      entryOutcome sampleConfig matchSecond "frame" 1 ("bob", "B") = .matched (1 / 10) ∧
      (verify sampleConfig firstEmpty matchSecond "frame" initialState).1.isVerified
        = some true ∧
      (verify sampleConfig firstEmpty matchSecond "frame" initialState).2.length = 1 ∧
      (verify sampleConfig firstEmpty matchSecond "frame" initialState).2.length ≠ 2) ∧
    (entryOutcome sampleConfig throwFirst "frame" 0 ("alice", "A") = .threw ∧
      entryOutcome sampleConfig throwFirst "frame" 1 ("bob", "B") = .matched (1 / 10) ∧
      (verify sampleConfig twoEntries throwFirst "frame" initialState).1.isVerified
        = some false ∧
      (verify sampleConfig twoEntries throwFirst "frame" initialState).1.identity = none ∧
      (verify sampleConfig twoEntries throwFirst "frame" initialState).2.length = 1) := by
  simp [firstEmpty, twoEntries, matchSecond, throwFirst, verifyOk, entryOutcome, verify,
    verifyLoop, LoopVars.init, initialState]

/-- C3, as the code has it: with an empty registry, `verify` on a non-empty frame issues no
request and ends with `isVerified = false`, `identity = null` and `accuracy = 0` (the initial
value of `matchAccuracy`, not `null`). -/
theorem verify_empty_registry (cfg : Config) (fetch : VerifyFetch) (base64Img : String)
    (s : DisplayState) (himg : base64Img ≠ "") :
    (verify cfg [] fetch base64Img s).2 = [] ∧
    (verify cfg [] fetch base64Img s).1.isVerified = some false ∧
    (verify cfg [] fetch base64Img s).1.identity = none ∧
    (verify cfg [] fetch base64Img s).1.accuracy = some 0 := by
  simp [verify, verifyLoop, LoopVars.init, himg]

/-- Witness for C3 at the frame `"frame"`. -/
theorem verify_empty_registry_witness :
    (verify sampleConfig [] http500Always "frame" initialState).2 = [] ∧
    (verify sampleConfig [] http500Always "frame" initialState).1.isVerified = some false ∧
    (verify sampleConfig [] http500Always "frame" initialState).1.identity = none ∧
    (verify sampleConfig [] http500Always "frame" initialState).1.accuracy = some 0 :=
  verify_empty_registry sampleConfig http500Always "frame" initialState (by decide)

/-- Counterexample to C3 as stated: with an empty registry the accuracy after `verify` is 0,
not `null`. -/
theorem verify_empty_registry_counterexample :
    (verify sampleConfig [] http500Always "frame" initialState).1.accuracy = some 0 ∧
    (verify sampleConfig [] http500Always "frame" initialState).1.accuracy ≠ none := by
  simp [verify, verifyLoop, LoopVars.init, initialState]

/-- C8: if the request for the entry at position `j` throws and no entry before it got a
response with `verified = true`, then `verify` on a non-empty frame ends with
`isVerified = false` and `accuracy = null`, and every request it issued is for an entry at a
position at most `j`.  Nothing is assumed of the entries after `j`, nor of the scores of the
entries before it. -/
theorem verify_throw_aborts (cfg : Config) (db : FacialDb) (fetch : VerifyFetch)
    (base64Img : String) (s : DisplayState) (j : Nat) (e : String × String)
    (himg : base64Img ≠ "") (hj : db[j]? = some e)
    (ht : entryOutcome cfg fetch base64Img j e = .threw)
    (hpre : ∀ m e', m < j → db[m]? = some e' →
      ∀ d', entryOutcome cfg fetch base64Img m e' ≠ .matched d') :
    (verify cfg db fetch base64Img s).1.isVerified = some false ∧
    (verify cfg db fetch base64Img s).1.accuracy = none ∧
    ∀ p ∈ (verify cfg db fetch base64Img s).2, p.1 ≤ j := by
  have hloop := verifyLoop_throw cfg fetch base64Img db 0 LoopVars.init j e hj
    (by simpa using ht) (by simpa using hpre)
  rw [verify_of_loop_none cfg db fetch base64Img s himg hloop.1]
  refine ⟨rfl, rfl, ?_⟩
  intro p hp
  simpa using hloop.2 p hp

/-- Witness for C8: the first entry is compared at distance 0.2 (score 50), the request for the
second throws, the third would have matched. -/
theorem verify_throw_aborts_witness :
    entryOutcome sampleConfig throwSecond "frame" 0 ("alice", "A") = .nonMatch (1 / 5) ∧
    entryOutcome sampleConfig throwSecond "frame" 2 ("carol", "C") = .matched 0 ∧
    (verify sampleConfig threeEntries throwSecond "frame" initialState).1.isVerified
      = some false ∧
    (verify sampleConfig threeEntries throwSecond "frame" initialState).1.accuracy = none ∧
    ∀ p ∈ (verify sampleConfig threeEntries throwSecond "frame" initialState).2, p.1 ≤ 1 := by
  refine ⟨by simp [entryOutcome, throwSecond, verifyOk],
    by simp [entryOutcome, throwSecond, verifyOk], ?_⟩
  exact verify_throw_aborts sampleConfig threeEntries throwSecond "frame" initialState 1
    ("bob", "B") (by decide) (by simp [threeEntries])
    (by simp [entryOutcome, throwSecond, verifyOk])
    (by
      intro m e' hm he'
      have hm0 : m = 0 := by omega
      subst hm0
      simp [threeEntries] at he'
      subst he'
      simp [entryOutcome, throwSecond, verifyOk])

/-- C9, as the code has it: a request answered with a non-success HTTP status is treated as a
non-match and does not end the loop.  If the request for the entry at position `j` gets a
non-success status, no request for another entry before `k` throws, and the later entry at
position `k` is the first to get a success response with `verified = true`, then `verify`
issues the requests for `j` and for `k` and ends with `isVerified = true`, `identity` the key
of entry `k` and `accuracy` the clamped score of its distance. -/
theorem verify_http_error_continues (cfg : Config) (db : FacialDb) (fetch : VerifyFetch)
    (base64Img : String) (s : DisplayState) (j k : Nat) (ej e : String × String) (d : ℚ)
    (himg : base64Img ≠ "") (hjk : j < k) (hj : db[j]? = some ej)
    (hfail : entryOutcome cfg fetch base64Img j ej = .httpError)
    (hk : db[k]? = some e)
    (hm : entryOutcome cfg fetch base64Img k e = .matched d)
    (hpre : ∀ i e', i < k → i ≠ j → db[i]? = some e' →
      entryOutcome cfg fetch base64Img i e' ≠ .threw ∧
      ∀ d', entryOutcome cfg fetch base64Img i e' ≠ .matched d') :
    (j, verifyRequest cfg base64Img ej.2) ∈ (verify cfg db fetch base64Img s).2 ∧
    (k, verifyRequest cfg base64Img e.2) ∈ (verify cfg db fetch base64Img s).2 ∧
    (verify cfg db fetch base64Img s).1.isVerified = some true ∧
    (verify cfg db fetch base64Img s).1.identity = some e.1 ∧
    (verify cfg db fetch base64Img s).1.accuracy = some (matchAccuracyOf d) := by
  have hpre2 : ∀ i e', i < k → db[i]? = some e' →
      entryOutcome cfg fetch base64Img (0 + i) e' ≠ .threw ∧
      ∀ d', entryOutcome cfg fetch base64Img (0 + i) e' ≠ .matched d' := by
    intro i e1 hi hie
    rw [Nat.zero_add]
    by_cases hij : i = j
    · subst hij
      rw [hj] at hie
      cases hie
      rw [hfail]
      simp
    · exact hpre i e1 hi hij hie
  have hloop := verifyLoop_first_match cfg fetch base64Img db 0 LoopVars.init k e d hk
    (by simpa using hm) hpre2
  rw [verify_of_loop_some cfg db fetch base64Img s _ _ himg hloop]
  have hnej : ej.2 ≠ "" :=
    entryOutcome_ne_skipped cfg fetch base64Img j ej (by rw [hfail]; simp)
  have hnek : e.2 ≠ "" :=
    entryOutcome_ne_skipped cfg fetch base64Img k e (by rw [hm]; simp)
  have hlen : k < db.length := by
    rcases Nat.lt_or_ge k db.length with h | h
    · exact h
    · rw [List.getElem?_eq_none h] at hk; simp at hk
  have hmj := mem_issued cfg base64Img (db.take (k + 1)) 0 j ej
    (by rw [List.getElem?_take_of_lt (by omega)]; exact hj) hnej
  have hmk := mem_issued cfg base64Img (db.take (k + 1)) 0 k e
    (by rw [List.getElem?_take_of_lt (by omega)]; exact hk) hnek
  rw [Nat.zero_add] at hmj hmk
  exact ⟨hmj, hmk, by simp, by simp, by simp⟩

/-- Witness for C9: the first request gets status 500, the second entry matches. -/
theorem verify_http_error_continues_witness :
    (verify sampleConfig twoEntries http500First "frame" initialState).1.isVerified
      = some true ∧
    (verify sampleConfig twoEntries http500First "frame" initialState).1.identity
      = some "bob" ∧
    (verify sampleConfig twoEntries http500First "frame" initialState).1.accuracy
      = some (matchAccuracyOf (1 / 10)) := by
  have h := verify_http_error_continues sampleConfig twoEntries http500First "frame"
    initialState 0 1 ("alice", "A") ("bob", "B") (1 / 10) (by decide) (by decide)
    (by simp [twoEntries])
    (by simp [entryOutcome, http500First, verifyHttp500])
    (by simp [twoEntries])
    (by simp [entryOutcome, http500First, verifyOk])
    (by intro i e' hi hne; omega)
  exact h.2.2

/-- Counterexample to C9 as stated: when the request for the first entry fails with a network
error, `verify` issues no request for the second entry, which would have matched, and ends with
`isVerified = false`. -/
theorem verify_http_error_continues_counterexample :
    throwFirst 0 (verifyRequest sampleConfig "frame" "A") = none ∧
    entryOutcome sampleConfig throwFirst "frame" 1 ("bob", "B") = .matched (1 / 10) ∧
    (verify sampleConfig twoEntries throwFirst "frame" initialState).2
      = [(0, verifyRequest sampleConfig "frame" "A")] ∧
    (1, verifyRequest sampleConfig "frame" "B")
      ∉ (verify sampleConfig twoEntries throwFirst "frame" initialState).2 ∧
    (verify sampleConfig twoEntries throwFirst "frame" initialState).1.isVerified
      = some false ∧
    (verify sampleConfig twoEntries throwFirst "frame" initialState).1.identity = none ∧
    (verify sampleConfig twoEntries throwFirst "frame" initialState).1.accuracy = none := by
  simp [twoEntries, throwFirst, verifyOk, entryOutcome, verify, verifyLoop, LoopVars.init,
    initialState]

theorem verifyLoop_pass (cfg : Config) (fetch : VerifyFetch) (base64Img : String)
    (db : FacialDb) (i : Nat) (vars : LoopVars)
    (hall : ∀ m e', db[m]? = some e' →
      entryOutcome cfg fetch base64Img (i + m) e' ≠ .threw ∧
      ∀ d', entryOutcome cfg fetch base64Img (i + m) e' ≠ .matched d') :
    ∃ acc : ℚ, verifyLoop cfg fetch base64Img db i vars =
      (some { vars with matchAccuracy := acc }, issued cfg base64Img db i) := by
  induction db generalizing i vars with
  | nil => exact ⟨vars.matchAccuracy, by simp [verifyLoop, issued]⟩
  | cons a rest ih =>
    have hrec : ∀ vars1 : LoopVars, ∃ acc : ℚ,
        verifyLoop cfg fetch base64Img rest (i + 1) vars1 =
          (some { vars1 with matchAccuracy := acc }, issued cfg base64Img rest (i + 1)) := by
      intro vars1
      apply ih
      intro m e1 hme
      have := hall (m + 1) e1 (by simpa using hme)
      rwa [show i + (m + 1) = i + 1 + m by omega] at this
    have h0 := hall 0 a (by simp)
    rw [Nat.add_zero] at h0
    rw [verifyLoop_cons, issued_cons]
    cases ho : entryOutcome cfg fetch base64Img i a with
    | skipped =>
      rw [if_pos ((entryOutcome_eq_skipped_iff cfg fetch base64Img i a).1 ho)]
      exact hrec vars
    | threw => exact absurd ho h0.1
    | httpError =>
      have hne : a.2 ≠ "" := entryOutcome_ne_skipped cfg fetch base64Img i a (by rw [ho]; simp)
      obtain ⟨acc, hacc⟩ := hrec vars
      exact ⟨acc, by rw [if_neg hne]; simp [hacc]⟩
    | nonMatch d1 =>
      have hne : a.2 ≠ "" := entryOutcome_ne_skipped cfg fetch base64Img i a (by rw [ho]; simp)
      obtain ⟨acc, hacc⟩ := hrec { vars with matchAccuracy := matchAccuracyOf d1 }
      exact ⟨acc, by rw [if_neg hne]; simp [hacc]⟩
    | matched d1 => exact absurd ho (h0.2 d1)

theorem entryOutcome_inert_of_ne (o : EntryOutcome) (h1 : o ≠ .threw)
    (h2 : ∀ d, o ≠ .matched d) (h3 : ∀ d, o ≠ .nonMatch d) : o = .skipped ∨ o = .httpError := by
  cases o with
  | skipped => exact Or.inl rfl
  | threw => exact absurd rfl h1
  | httpError => exact Or.inr rfl
  | nonMatch d => exact absurd rfl (h3 d)
  | matched d => exact absurd rfl (h2 d)

/-- C10, as the code has it: when no request throws and no response reports `verified = true`,
`verify` on a non-empty frame issues a request for every entry with a non-empty reference and
ends with `isVerified = false`, `identity = null` and an accuracy that is not `null`: it is the
clamped score of the last entry whose request got a success response, and 0 when no request
got one. -/
theorem verify_no_match (cfg : Config) (db : FacialDb) (fetch : VerifyFetch)
    (base64Img : String) (s : DisplayState) (himg : base64Img ≠ "")
    (hall : ∀ m e', db[m]? = some e' →
      entryOutcome cfg fetch base64Img m e' ≠ .threw ∧
      ∀ d', entryOutcome cfg fetch base64Img m e' ≠ .matched d') :
    (verify cfg db fetch base64Img s).1.isVerified = some false ∧
    (verify cfg db fetch base64Img s).1.identity = none ∧
    (verify cfg db fetch base64Img s).2 = issued cfg base64Img db 0 ∧
    (∀ l e d, db[l]? = some e → entryOutcome cfg fetch base64Img l e = .nonMatch d →
      (∀ m e', l < m → db[m]? = some e' →
        ∀ d', entryOutcome cfg fetch base64Img m e' ≠ .nonMatch d') →
      (verify cfg db fetch base64Img s).1.accuracy = some (matchAccuracyOf d)) ∧
    ((∀ m e', db[m]? = some e' → ∀ d', entryOutcome cfg fetch base64Img m e' ≠ .nonMatch d') →
      (verify cfg db fetch base64Img s).1.accuracy = some 0) := by
  obtain ⟨acc, hacc⟩ := verifyLoop_pass cfg fetch base64Img db 0 LoopVars.init
    (by simpa using hall)
  refine ⟨?_, ?_, ?_, ?_, ?_⟩
  · rw [verify_of_loop_some cfg db fetch base64Img s _ _ himg hacc]
    simp [LoopVars.init]
  · rw [verify_of_loop_some cfg db fetch base64Img s _ _ himg hacc]
    simp [LoopVars.init]
  · rw [verify_of_loop_some cfg db fetch base64Img s _ _ himg hacc]
  · intro l e d hl hn hlast
    have hloop := verifyLoop_no_match cfg fetch base64Img db 0 LoopVars.init l e d hl
      (by simpa using hn)
      (by intro m e1 _ hme; simpa using hall m e1 hme)
      (by
        intro m e1 hm hme
        rw [Nat.zero_add]
        exact entryOutcome_inert_of_ne _ (hall m e1 hme).1 (hall m e1 hme).2
          (hlast m e1 hm hme))
    rw [verify_of_loop_some cfg db fetch base64Img s _ _ himg hloop]
    simp [LoopVars.init]
  · intro hnone
    have hloop := verifyLoop_inert cfg fetch base64Img db 0 LoopVars.init
      (by
        intro m e1 hme
        rw [Nat.zero_add]
        exact entryOutcome_inert_of_ne _ (hall m e1 hme).1 (hall m e1 hme).2 (hnone m e1 hme))
    rw [verify_of_loop_some cfg db fetch base64Img s _ _ himg hloop]
    simp [LoopVars.init]

/-- Witness for C10: the first entry is compared at distance 0.2, the request for the second
gets status 500; the accuracy is the score 50 of the first. -/
theorem verify_no_match_witness :
    (verify sampleConfig twoEntries http500AfterFirst "frame" initialState).1.isVerified
      = some false ∧
    (verify sampleConfig twoEntries http500AfterFirst "frame" initialState).1.identity = none ∧
    (verify sampleConfig twoEntries http500AfterFirst "frame" initialState).1.accuracy
      = some (matchAccuracyOf (1 / 5)) := by
  have hall : ∀ m e', twoEntries[m]? = some e' →
      entryOutcome sampleConfig http500AfterFirst "frame" m e' ≠ .threw ∧
      ∀ d', entryOutcome sampleConfig http500AfterFirst "frame" m e' ≠ .matched d' := by
    intro m e' he'
    match m with
    | 0 =>
      simp [twoEntries] at he'
      subst he'
      simp [entryOutcome, http500AfterFirst, verifyOk]
    | 1 =>
      simp [twoEntries] at he'
      subst he'
      simp [entryOutcome, http500AfterFirst, verifyOk]
    | m + 2 => simp [twoEntries] at he'
  have h := verify_no_match sampleConfig twoEntries http500AfterFirst "frame" initialState
    (by decide) hall
  refine ⟨h.1, h.2.1, h.2.2.2.1 0 ("alice", "A") (1 / 5) (by simp [twoEntries])
    (by simp [entryOutcome, http500AfterFirst, verifyOk]) ?_⟩
  intro m e' hm he'
  match m with
  | 1 =>
    simp [twoEntries] at he'
    subst he'
    simp [entryOutcome, http500AfterFirst]
  | m + 2 => simp [twoEntries] at he'

/-- Counterexample to C10 as stated: no request throws and no response reports a match; the
last entry for which a request is issued is the second, whose response has status 500 and a
body reporting distance 0.8 (clamped score 0), yet the accuracy is 50, the score of the first
entry. -/
theorem verify_no_match_counterexample :
    twoEntries ≠ [] ∧
    entryOutcome sampleConfig http500AfterFirst "frame" 0 ("alice", "A") = .nonMatch (1 / 5) ∧
    entryOutcome sampleConfig http500AfterFirst "frame" 1 ("bob", "B") = .httpError ∧
    http500AfterFirst 1 (verifyRequest sampleConfig "frame" "B")
      = some { ok := false, status := 500,
               json := some { verified := false, distance := 4 / 5 } } ∧
    (verify sampleConfig twoEntries http500AfterFirst "frame" initialState).2.getLast?
      = some (1, verifyRequest sampleConfig "frame" "B") ∧
    (verify sampleConfig twoEntries http500AfterFirst "frame" initialState).1.accuracy
      = some 50 ∧
    matchAccuracyOf (4 / 5) = 0 ∧
    (verify sampleConfig twoEntries http500AfterFirst "frame" initialState).1.accuracy
      ≠ some (matchAccuracyOf (4 / 5)) := by
  have h1 : matchAccuracyOf (5⁻¹) = 50 := by norm_num [matchAccuracyOf, threshold]
  have h2 : matchAccuracyOf (4 / 5) = 0 := by norm_num [matchAccuracyOf, threshold]
  simp [twoEntries, http500AfterFirst, verifyOk, entryOutcome, verify, verifyLoop,
    LoopVars.init, initialState, h1, h2]

/-- C4 fails on the code: after an Analyze action that shows an analysis, a Verify action that
ends in a match leaves `isAnalyzed = true` while `isVerified = true`, so both results are shown;
the same Verify action without a match does clear `isAnalyzed`. -/
theorem verified_match_keeps_analysis :
    (runActions sampleConfig twoEntries initialState
      [.analyze "frame" (analyzeOk [sampleInstance])]).isAnalyzed = some true ∧
    (runActions sampleConfig twoEntries initialState
      [.analyze "frame" (analyzeOk [sampleInstance]), .verify "frame" matchAlways]).isVerified
        = some true ∧
    (runActions sampleConfig twoEntries initialState
      [.analyze "frame" (analyzeOk [sampleInstance]), .verify "frame" matchAlways]).isAnalyzed
        = some true ∧
    (runActions sampleConfig twoEntries initialState
      [.analyze "frame" (analyzeOk [sampleInstance]), .verify "frame" matchAlways]).analysis
        = ["30 years old asian Man with happy mood."] ∧
    (runActions sampleConfig twoEntries initialState
      [.analyze "frame" (analyzeOk [sampleInstance]), .verify "frame" matchNever]).isAnalyzed
        = none := by
  have hs : summary sampleInstance = "30 years old asian Man with happy mood." := by decide
  simp [runActions, captureImage, analyze, analyzeOk, verify, verifyLoop, twoEntries,
    matchAlways, matchNever, verifyOk, LoopVars.init, initialState, hs]

/-- C5: a success response of the analyze endpoint with a non-empty list of results makes
`analyze` replace `analysis` by the list, in the same order and of the same length, of the
sentences `"<age> years old <dominant_race> <dominant_gender> with <dominant_emotion> mood."`
built from each result entry (an integer age in decimal, any other age as the interpolation
prints it), set `isAnalyzed = true` and clear `isVerified` and `accuracy`; for the single result
`{age: 30, dominant_race: "asian", dominant_gender: "Man", dominant_emotion: "happy"}` the
analysis is exactly `["30 years old asian Man with happy mood."]`. -/
theorem analyze_success (cfg : Config) (fetch : AnalyzeFetch) (base64Img : String)
    (s : DisplayState) (response : AnalyzeResponse) (results : List AnalyzeInstance)
    (hf : fetch (analyzeRequest cfg base64Img) = some response) (hok : response.ok = true)
    (hjson : response.json = some results) (hne : results ≠ []) :
    (analyze cfg fetch base64Img s).1.analysis
      = results.map (fun r =>
          (match r.age with
            | .integer n => Nat.repr n.val
            | .other rendering => rendering)
          ++ " years old " ++ r.dominant_race ++ " " ++ r.dominant_gender ++ " with "
          ++ r.dominant_emotion ++ " mood.") ∧
    (analyze cfg fetch base64Img s).1.analysis.length = results.length ∧
    (analyze cfg fetch base64Img s).1.isAnalyzed = some true ∧
    (analyze cfg fetch base64Img s).1.isVerified = none ∧
    (analyze cfg fetch base64Img s).1.accuracy = none ∧
    (analyze cfg fetch base64Img s).2 = [analyzeRequest cfg base64Img] ∧
    (results = [{ age := .integer 30, dominant_race := "asian", dominant_gender := "Man",
                  dominant_emotion := "happy" }] →
      (analyze cfg fetch base64Img s).1.analysis
        = ["30 years old asian Man with happy mood."]) := by
  have hlen : 0 < (results.map summary).length := by
    rw [List.length_map]
    exact List.length_pos.2 hne
  have h : analyze cfg fetch base64Img s =
      ({ s with analysis := results.map summary, isAnalyzed := some true, isVerified := none,
                accuracy := none }, [analyzeRequest cfg base64Img]) := by
    simp only [analyze, hf, hok, hjson]
    simp [hlen, hne]
  have hfmt : ∀ r : AnalyzeInstance, summary r =
      (match r.age with
        | .integer n => Nat.repr n.val
        | .other rendering => rendering)
      ++ " years old " ++ r.dominant_race ++ " " ++ r.dominant_gender ++ " with "
      ++ r.dominant_emotion ++ " mood." := by
    intro r
    obtain ⟨age, race, gender, emotion⟩ := r
    cases age <;> rfl
  rw [h]
  refine ⟨List.map_congr_left (fun r _ => hfmt r), by simp, rfl, rfl, rfl, rfl, ?_⟩
  intro hr
  subst hr
  have hs : summary { age := .integer 30, dominant_race := "asian", dominant_gender := "Man",
                      dominant_emotion := "happy" }
      = "30 years old asian Man with happy mood." := by decide
  simp [hs]

/-- Witness for C5: the response of the example, on a state that shows a verification. -/
theorem analyze_success_witness :
    (analyze sampleConfig (analyzeOk [sampleInstance]) "frame"
      { initialState with isVerified := some true, accuracy := some 75 }).1.analysis
        = ["30 years old asian Man with happy mood."] ∧
    (analyze sampleConfig (analyzeOk [sampleInstance]) "frame"
      { initialState with isVerified := some true, accuracy := some 75 }).1.isAnalyzed
        = some true ∧
    (analyze sampleConfig (analyzeOk [sampleInstance]) "frame"
      { initialState with isVerified := some true, accuracy := some 75 }).1.isVerified
        = none ∧
    (analyze sampleConfig (analyzeOk [sampleInstance]) "frame"
      { initialState with isVerified := some true, accuracy := some 75 }).1.accuracy = none := by
  have h := analyze_success sampleConfig (analyzeOk [sampleInstance]) "frame"
    { initialState with isVerified := some true, accuracy := some 75 }
    { ok := true, status := 200, json := some [sampleInstance] } [sampleInstance]
    rfl rfl rfl (by simp)
  exact ⟨h.2.2.2.2.2.2 rfl, h.2.2.1, h.2.2.2.1, h.2.2.2.2.1⟩

/-- C6, as the code has it: a success response with zero results makes `analyze` leave
`analysis`, `isVerified`, `identity` and `accuracy` at their prior values and set
`isAnalyzed = false`, whatever its prior value. -/
theorem analyze_empty_results (cfg : Config) (fetch : AnalyzeFetch) (base64Img : String)
    (s : DisplayState) (response : AnalyzeResponse)
    (hf : fetch (analyzeRequest cfg base64Img) = some response) (hok : response.ok = true)
    (hjson : response.json = some []) :
    (analyze cfg fetch base64Img s).1.analysis = s.analysis ∧
    (analyze cfg fetch base64Img s).1.isVerified = s.isVerified ∧
    (analyze cfg fetch base64Img s).1.identity = s.identity ∧
    (analyze cfg fetch base64Img s).1.accuracy = s.accuracy ∧
    (analyze cfg fetch base64Img s).1.isAnalyzed = some false := by
  simp [analyze, hf, hok, hjson]

/-- Witness for C6 on a state that shows an analysis. -/
theorem analyze_empty_results_witness :
    (analyze sampleConfig (analyzeOk []) "frame" shownAnalysis).1.analysis
      = shownAnalysis.analysis ∧
    (analyze sampleConfig (analyzeOk []) "frame" shownAnalysis).1.isAnalyzed = some false := by
  have h := analyze_empty_results sampleConfig (analyzeOk []) "frame" shownAnalysis
    { ok := true, status := 200, json := some [] } rfl rfl rfl
  exact ⟨h.1, h.2.2.2.2⟩

/-- Counterexample to C6 as stated: on a state that shows an analysis, a success response with
zero results changes `isAnalyzed` from `true` to `false`. -/
theorem analyze_empty_results_counterexample :
    shownAnalysis.isAnalyzed = some true ∧
    (analyze sampleConfig (analyzeOk []) "frame" shownAnalysis).1.isAnalyzed = some false ∧
    (analyze sampleConfig (analyzeOk []) "frame" shownAnalysis).1.isAnalyzed
      ≠ shownAnalysis.isAnalyzed := by
  simp [analyze, analyzeOk, shownAnalysis]

/-- C7, as the code has it: when the analyze request throws, or gets a non-success status, or
a success response whose body fails to parse, `analyze` issues that one request, leaves
`analysis`, `isVerified`, `identity` and `accuracy` at their prior values and ends with
`isAnalyzed = false`, whatever its prior value. -/
theorem analyze_failure (cfg : Config) (fetch : AnalyzeFetch) (base64Img : String)
    (s : DisplayState)
    (hfail : fetch (analyzeRequest cfg base64Img) = none ∨
      ∃ response, fetch (analyzeRequest cfg base64Img) = some response ∧
        (response.ok = false ∨ response.json = none)) :
    (analyze cfg fetch base64Img s).2 = [analyzeRequest cfg base64Img] ∧
    (analyze cfg fetch base64Img s).1.analysis = s.analysis ∧
    (analyze cfg fetch base64Img s).1.isVerified = s.isVerified ∧
    (analyze cfg fetch base64Img s).1.identity = s.identity ∧
    (analyze cfg fetch base64Img s).1.accuracy = s.accuracy ∧
    (analyze cfg fetch base64Img s).1.isAnalyzed = some false := by
  have h : analyze cfg fetch base64Img s =
      ({ s with isAnalyzed := some false }, [analyzeRequest cfg base64Img]) := by
    rcases hfail with hf | ⟨response, hf, hok | hjson⟩
    · simp [analyze, hf]
    · simp [analyze, hf, hok]
    · by_cases hok : response.ok = false
      · simp [analyze, hf, hok]
      · simp [analyze, hf, hok, hjson]
  rw [h]
  exact ⟨rfl, rfl, rfl, rfl, rfl, rfl⟩

/-- Witness for C7: the request throws on a state that shows an analysis. -/
theorem analyze_failure_witness :
    (analyze sampleConfig analyzeThrows "frame" shownAnalysis).1.analysis
      = shownAnalysis.analysis ∧
    (analyze sampleConfig analyzeThrows "frame" shownAnalysis).1.isAnalyzed = some false := by
  have h := analyze_failure sampleConfig analyzeThrows "frame" shownAnalysis (Or.inl rfl)
  exact ⟨h.2.1, h.2.2.2.2.2⟩

/-- Counterexample to C7 as stated: on a state that shows an analysis, a request that throws
and a request that gets status 500 both change `isAnalyzed` from `true` to `false`. -/
theorem analyze_failure_counterexample :
    shownAnalysis.isAnalyzed = some true ∧
    (analyze sampleConfig analyzeThrows "frame" shownAnalysis).1.isAnalyzed = some false ∧
    (analyze sampleConfig analyzeHttp500 "frame" shownAnalysis).1.isAnalyzed = some false ∧
    (analyze sampleConfig analyzeThrows "frame" shownAnalysis).1.isAnalyzed
      ≠ shownAnalysis.isAnalyzed := by
  simp [analyze, analyzeThrows, analyzeHttp500, shownAnalysis]


end SmartSurveillance
